import Mathlib

/-
  Verification development for the EasyMusic build scripts
  (scripts/build-spotdl.py, scripts/build-spotdl-pyinstaller.py,
  scripts/build-ytdlp-pyinstaller.py).

  The scripts are shallowly embedded: each external effect (spawning a
  subprocess, probing the filesystem, sleeping) is represented by an
  oracle argument, and the control flow of the Python functions is
  translated line by line into Lean definitions. Python text is modelled
  as List Char so that every operation reduces in the kernel.
-/

/-- Python text, modelled as a list of characters. -/
def PyStr : Type := List Char
deriving DecidableEq

/-- Convert a Lean string literal into the PyStr model. -/
def pys (s : String) : PyStr := s.data

deriving instance DecidableEq for Except

instance : Append PyStr := ⟨fun a b => List.append a b⟩

/-- Python str.strip() with no argument: remove leading and trailing
    whitespace. -/
def pyStrip (s : PyStr) : PyStr :=
  ((List.dropWhile Char.isWhitespace s).reverse.dropWhile Char.isWhitespace).reverse

/-- Python str.split() with no separator: split on whitespace, dropping
    empty pieces. -/
def pySplitWs (s : PyStr) : List PyStr :=
  (List.splitOnP Char.isWhitespace s).filter (fun t => t ≠ [])

/-- Python str.split(sep) for a one-character separator: split on each
    occurrence, keeping empty pieces. -/
def pySplitOn (sep : Char) (s : PyStr) : List PyStr :=
  List.splitOn sep s

/-- The digits of a Python int literal: all characters are decimal digits
    and there is at least one. -/
def pyDigits (s : PyStr) : Option Nat :=
  match s with
  | [] => none
  | l =>
    if l.all Char.isDigit then
      some (l.foldl (fun n c => n * 10 + (c.toNat - 48)) 0)
    else none

/-- Python int(text) on the version fields that occur here: an optional
    sign followed by decimal digits; anything else raises ValueError,
    modelled as none. -/
def pyToInt (s : PyStr) : Option Int :=
  match s with
  | '-' :: rest => (pyDigits rest).map (fun n => -(n : Int))
  | '+' :: rest => (pyDigits rest).map (fun n => (n : Int))
  | l => (pyDigits l).map (fun n => (n : Int))

/-- Python str.lower() (ASCII letters, which is all that occurs here). -/
def pyLower (s : PyStr) : PyStr := s.map Char.toLower

/-- Python str.startswith(pat): pat is an initial segment of the text. -/
def pyStartsWith (pat s : PyStr) : Bool :=
  match pat, s with
  | [], _ => true
  | _ :: _, [] => false
  | p :: ps, c :: cs => p = c && pyStartsWith ps cs

/-- Outcome of probing one interpreter candidate with `cmd --version`
    (subprocess.run with a 5 second timeout, no check=True).
    spawnFailure is a FileNotFoundError (or CalledProcessError), which the
    per-candidate handler catches; spawnDenied is any other spawn
    exception (e.g. PermissionError), which only the outer handler
    catches; timeout is subprocess.TimeoutExpired, likewise not caught by
    the per-candidate handler; exit code out is a completed process with
    the given return code and stdout. -/
inductive ProbeResult where
  | spawnFailure
  | spawnDenied
  | timeout
  | exit (code : Int) (stdout : PyStr)
deriving DecidableEq

/-- The version-string parsing shared by both check_python_version
    functions: strip the output, require at least two whitespace-separated
    fields, split the second field on dots, require at least two
    components, and read the first two with int(). Returns
    (major, minor); any failure in this chain is treated by the callers
    as unparseable output. The third (patch) component is never read. -/
def parseMajorMinor (s : PyStr) : Option (Int × Int) :=
  let version_output := pyStrip s
  if version_output = [] then none
  else
    let parts := pySplitWs version_output
    if parts.length < 2 then none
    else
      let version := parts.getD 1 []
      let version_parts := pySplitOn '.' version
      if version_parts.length < 2 then none
      else
        match pyToInt (version_parts.getD 0 []), pyToInt (version_parts.getD 1 []) with
        | some major, some minor => some (major, minor)
        | _, _ => none

/-- The acceptance test of build-spotdl-pyinstaller.py line 135:
    major >= 3 and minor >= 8. -/
def versionOk8 (v : Int × Int) : Bool :=
  3 ≤ v.1 && 8 ≤ v.2

/-- The acceptance test of build-spotdl.py line 144:
    major >= 3 and minor >= 10. -/
def versionOk10 (v : Int × Int) : Bool :=
  3 ≤ v.1 && 10 ≤ v.2

/-- Candidate list of build-spotdl-pyinstaller.py line 103. -/
def pythonCmdsPyi : List String :=
  ["python3.11", "python3.10", "python3.9", "python3.8", "python3"]

/-- Candidate list of build-spotdl.py line 100. -/
def pythonCmdsSpotdl : List String :=
  ["python", "python3.11", "python3.10"]

/-- check_python_version of build-spotdl-pyinstaller.py (lines 94-149),
    abstracted over the candidate list. Each candidate is probed in order;
    a FileNotFoundError / CalledProcessError / ValueError, a non-zero
    return code, unparseable output, or a too-old version moves on to the
    next candidate; the first candidate whose parsed version passes
    versionOk8 is returned. A TimeoutExpired or a PermissionError-style
    spawn exception escapes the per-candidate handler, is caught by the
    outer handler, and makes the whole function return None at once. -/
def check_python_version_pyi (probe : String → ProbeResult) :
    List String → Option String
  | [] => none
  | cmd :: rest =>
    match probe cmd with
    | .spawnFailure => check_python_version_pyi probe rest
    | .spawnDenied => none
    | .timeout => none
    | .exit code out =>
      if code ≠ 0 then check_python_version_pyi probe rest
      else
        match parseMajorMinor out with
        | none => check_python_version_pyi probe rest
        | some v =>
          if versionOk8 v then some cmd
          else check_python_version_pyi probe rest

/-- Outcome of the candidate loop of build-spotdl.py lines 105-117: the
    loop breaks at the first candidate whose probe completes with return
    code 0, keeping that candidate and its stdout; it skips
    FileNotFoundError / CalledProcessError and non-zero exits; a
    TimeoutExpired or PermissionError-style exception escapes the loop. -/
inductive SpotdlLoopOut where
  | timedOut
  | noZeroExit
  | found (cmd : String) (stdout : PyStr)
deriving DecidableEq

/-- The candidate loop of build-spotdl.py lines 105-117. -/
def probe_loop_spotdl (probe : String → ProbeResult) :
    List String → SpotdlLoopOut
  | [] => .noZeroExit
  | cmd :: rest =>
    match probe cmd with
    | .spawnFailure => probe_loop_spotdl probe rest
    | .spawnDenied => .timedOut
    | .timeout => .timedOut
    | .exit code out =>
      if code = 0 then .found cmd out
      else probe_loop_spotdl probe rest

/-- check_python_version of build-spotdl.py (lines 91-159), abstracted
    over the candidate list. Only the single candidate at which the loop
    broke (the first one that exited with code 0) has its version parsed
    and compared; an unparseable or too-old version on that candidate
    fails the whole resolution, and no later candidate is probed. A
    timeout (or PermissionError-style spawn exception) anywhere is caught
    by the outer handlers and also fails the whole resolution. -/
def check_python_version_spotdl (probe : String → ProbeResult)
    (cmds : List String) : Bool × Option String :=
  match probe_loop_spotdl probe cmds with
  | .timedOut => (false, none)
  | .noZeroExit => (false, none)
  | .found cmd out =>
    match parseMajorMinor out with
    | none => (false, none)
    | some v =>
      if versionOk10 v then (true, some cmd)
      else (false, none)

example : parseMajorMinor (pys "Python 3.11.4") = some (3, 11) := by decide
example : parseMajorMinor (pys "Python 2.7.18") = some (2, 7) := by decide
example : parseMajorMinor (pys "Python 4.8.0") = some (4, 8) := by decide
example : parseMajorMinor (pys "") = none := by decide
example : parseMajorMinor (pys "Python") = none := by decide
example : parseMajorMinor (pys "Python 3") = none := by decide
example : parseMajorMinor (pys " Python 3.10 ") = some (3, 10) := by decide

/-- Argument passed as cmd to run_command: either a Python str or a value
    of some other type (isinstance(cmd, str) is false). -/
inductive CmdArg where
  | pyStr (s : String)
  | nonString
deriving DecidableEq

/-- Outcome of the subprocess.run call inside run_command (shell=True,
    check=True, capture_output=True): normal completion with stdout,
    CalledProcessError carrying stderr (empty models a falsy stderr),
    TimeoutExpired, or any other exception carrying its message. -/
inductive SpawnOutcome where
  | ok (stdout : String)
  | nonZero (stderr : String)
  | timedOut
  | raised (msg : String)
deriving DecidableEq

/-- run_command, identical (up to the timeout constant and log text) in
    all three scripts: build-spotdl.py lines 14-54,
    build-spotdl-pyinstaller.py lines 15-55,
    build-ytdlp-pyinstaller.py lines 17-54. The guard `not cmd or not
    isinstance(cmd, str)` returns (False, "Invalid command") before any
    subprocess is started. The first component of the result records
    whether a child process was spawned; the second is the Python return
    value (success, output). -/
def run_command (cmd : CmdArg) (spawn : SpawnOutcome) :
    Bool × (Bool × String) :=
  match cmd with
  | .nonString => (false, (false, "Invalid command"))
  | .pyStr s =>
    if s = "" then (false, (false, "Invalid command"))
    else
      (true,
        match spawn with
        | .ok out => (true, out)
        | .nonZero err =>
          (false, if err = "" then "Command failed" else err)
        | .timedOut => (false, "Command timed out")
        | .raised msg => (false, msg))

/-- The spotdl install retry loop of build-spotdl.py lines 333-354, over
    the list of remaining attempt indices (`for attempt in
    range(max_retries)`). run gives the success of the pip install
    command at each attempt index. Returns (attempts made, number of
    time.sleep(5) calls, spotdl_installed): the loop breaks at the first
    success, sleeps 5 seconds after a failed attempt when
    attempt < max_retries - 1, and leaves spotdl_installed False after
    the last failure. -/
def install_retry_loop (run : Nat → Bool) : List Nat → Nat × Nat × Bool
  | [] => (0, 0, false)
  | a :: rest =>
    if run a then (1, 0, true)
    else
      match rest with
      | [] => (1, 0, false)
      | _ :: _ =>
        let r := install_retry_loop run rest
        (r.1 + 1, r.2.1 + 1, r.2.2)

/-- The spotdl installation of build-spotdl.py lines 331-354
    (max_retries = 3). -/
def install_spotdl (run : Nat → Bool) : Nat × Nat × Bool :=
  install_retry_loop run [0, 1, 2]

/-- The three commands tried for yt-dlp in build-spotdl.py lines 359-387:
    venv pip, venv python -m pip, and system pip3 --user. -/
inductive YtCmd where
  | venvPip
  | pyMPip
  | pip3User
deriving DecidableEq

/-- The yt-dlp installation of build-spotdl.py lines 359-387: one attempt
    with the venv pip; on failure the two alternative commands are tried
    in order until one succeeds; a final failure only prints a warning.
    Returns (commands attempted, installed). -/
def install_ytdlp (run : YtCmd → Bool) : List YtCmd × Bool :=
  if run .venvPip then ([.venvPip], true)
  else
    if run .pyMPip then ([.venvPip, .pyMPip], true)
    else ([.venvPip, .pyMPip, .pip3User], run .pip3User)

/-- The dependency-install section of build-spotdl.py main (lines
    331-387): main returns False when spotdl is still not installed after
    the retry loop; the yt-dlp block runs afterwards and never changes
    the control flow, whatever its outcome. Result: True when main
    proceeds past this section. -/
def main_install_section (run : Nat → Bool) (yt : YtCmd → Bool) : Bool :=
  let spotdl_installed := (install_spotdl run).2.2
  if !spotdl_installed then false
  else
    let _ := install_ytdlp yt
    true

/-- The filesystem probing of build-spotdl.py lines 268-275 and
    build-spotdl-pyinstaller.py lines 235-242: prefer bin/python3 over
    bin/python and bin/pip3 over bin/pip, according to which paths exist
    in the given filesystem snapshot. -/
def resolve_venv_paths (fs : String → Bool) : String × String :=
  ((if fs "spotdl_env/bin/python3" then "spotdl_env/bin/python3"
    else "spotdl_env/bin/python"),
   (if fs "spotdl_env/bin/pip3" then "spotdl_env/bin/pip3"
    else "spotdl_env/bin/pip"))

/-- The venv creation command list of build-spotdl.py lines 285-289. -/
def venv_commands (python_cmd : String) : List String :=
  [python_cmd ++ " -m venv --copies spotdl_env",
   python_cmd ++ " -m virtualenv spotdl_env",
   "virtualenv spotdl_env"]

/-- The strategy loop of build-spotdl.py lines 291-300: run each creation
    command in order, break at the first success (printing a warning, not
    an error, after each failure). Returns (commands attempted, the
    command that succeeded if any). -/
def venv_strategy_loop (run : String → Bool) :
    List String → List String × Option String
  | [] => ([], none)
  | c :: rest =>
    if run c then ([c], some c)
    else
      let r := venv_strategy_loop run rest
      (c :: r.1, r.2)

/-- The environment-creation step of build-spotdl.py lines 280-308:
    the strategy loop over venv_commands, and on total failure the
    remediation hints (python3-venv / virtualenv package names) are
    printed and main returns False. Returns (commands attempted,
    winning command if any, hints emitted). -/
def create_venv_spotdl (run : String → Bool) (python_cmd : String) :
    List String × Option String × Bool :=
  let r := venv_strategy_loop run (venv_commands python_cmd)
  (r.1, r.2, r.2.isNone)

/-- The environment-creation step of build-spotdl-pyinstaller.py lines
    224-232: a single `python -m venv spotdl_env` command (no copies
    mode); on failure a python3-venv hint is printed and the build
    function returns False immediately. Returns (commands attempted,
    created). -/
def create_venv_pyi (run : String → Bool) (python_cmd : String) :
    List String × Bool :=
  ([python_cmd ++ " -m venv spotdl_env"],
   run (python_cmd ++ " -m venv spotdl_env"))

/-- The path-resolution-and-provisioning part of build-spotdl.py main
    (lines 262-313): cleanup_existing_installation has already run,
    fsBefore is the filesystem before the venv is created (lines 268-275
    probe THIS snapshot), venvCreated is the outcome of the creation step,
    and fsAfter is the filesystem after creation. Line 311 verifies that
    the resolved venv_python exists in fsAfter. Returns the
    (venv_python, venv_pip) pair main goes on to use, or none when main
    returns False. -/
def provision_spotdl (fsBefore fsAfter : String → Bool)
    (venvCreated : Bool) : Option (String × String) :=
  let paths := resolve_venv_paths fsBefore
  if !venvCreated then none
  else if !fsAfter paths.1 then none
  else some paths

/-- The commands run by build_executable_with_pyinstaller
    (build-spotdl-pyinstaller.py lines 209-345), in source order. -/
inductive PyiCmd where
  | venvCreate
  | pipUpgrade
  | installSpotdlYtdlp
  | installPyinstaller
  | pyinstallerBuild
deriving DecidableEq

/-- Result of build_executable_with_pyinstaller: the returned boolean,
    whether the synthesized spotdl_entry.py is still on disk at return,
    and the commands that were run. -/
structure PyiBuildResult where
  success : Bool
  entryPersists : Bool
  cmdsRun : List PyiCmd
deriving DecidableEq

/-- build_executable_with_pyinstaller of build-spotdl-pyinstaller.py
    (lines 209-345). run gives the success of each command; fsAfterVenv is the
    filesystem after the venv-creation command (probed by lines 235-247);
    entryOk is the outcome of create_pyinstaller_entry_point (modelled as
    atomic: on failure no entry file is left); outputExists is whether
    binaries/spotdl/spotdl exists after the PyInstaller command; unlinkOk
    is whether the cleanup unlink of spotdl_entry.py succeeds (its
    failure is only a warning). Pip-upgrade failure is only a warning;
    chmod failure (line 334) is only a warning and is not modelled.
    The entry script is unlinked only on the path that reaches line 339:
    the returns at lines 321 and 327 leave it on disk. -/
def build_executable_with_pyinstaller (run : PyiCmd → Bool)
    (fsAfterVenv : String → Bool) (entryOk outputExists unlinkOk : Bool) :
    PyiBuildResult :=
  if !run .venvCreate then
    ⟨false, false, [.venvCreate]⟩
  else
    let venv_python := (resolve_venv_paths fsAfterVenv).1
    if !fsAfterVenv venv_python then
      ⟨false, false, [.venvCreate]⟩
    else if !run .installSpotdlYtdlp then
      ⟨false, false, [.venvCreate, .pipUpgrade, .installSpotdlYtdlp]⟩
    else if !run .installPyinstaller then
      ⟨false, false,
        [.venvCreate, .pipUpgrade, .installSpotdlYtdlp, .installPyinstaller]⟩
    else if !entryOk then
      ⟨false, false,
        [.venvCreate, .pipUpgrade, .installSpotdlYtdlp, .installPyinstaller]⟩
    else if !run .pyinstallerBuild then
      ⟨false, true,
        [.venvCreate, .pipUpgrade, .installSpotdlYtdlp, .installPyinstaller,
         .pyinstallerBuild]⟩
    else if !outputExists then
      ⟨false, true,
        [.venvCreate, .pipUpgrade, .installSpotdlYtdlp, .installPyinstaller,
         .pyinstallerBuild]⟩
    else
      ⟨true, !unlinkOk,
        [.venvCreate, .pipUpgrade, .installSpotdlYtdlp, .installPyinstaller,
         .pyinstallerBuild]⟩

/-- The verification tail of build-spotdl-pyinstaller.py main (lines
    372-386): return False when the output path does not exist; the stat
    size is computed only for the log line (a stat failure is a warning),
    so main proceeds to report success whatever statSize is, including
    some 0 for an empty file. -/
def main_verify_pyi (outputExists : Bool) (statSize : Option Nat) : Bool :=
  if !outputExists then false
  else
    match statSize with
    | some _ => true
    | none => true

/-- What the body of build-spotdl.py main does, for the purpose of the
    exit-status mapping: it returns a boolean, or a KeyboardInterrupt or
    other exception escapes it. The try block of lines 279-431 spans venv
    creation through final verification and has handlers for both
    KeyboardInterrupt (line 424, returns False) and Exception (line 427,
    returns False); only an interrupt raised before line 279 (during the
    CI check, version check, or cleanup) escapes main. -/
inductive SpotdlRunEvent where
  | success
  | failure
  | interruptBeforeTry
  | interruptInTry
  | errorBeforeTry
  | errorInTry
deriving DecidableEq

/-- How a call to main ends at the top level: a returned boolean or an
    escaping exception. -/
inductive MainOutcome where
  | ret (b : Bool)
  | raisedKI
  | raisedExc
deriving DecidableEq

/-- The outcome of build-spotdl.py main (lines 239-431) for each run
    event: the handlers at lines 424-431 convert an interrupt or error
    inside the try block into a False return. -/
def main_outcome_spotdl : SpotdlRunEvent → MainOutcome
  | .success => .ret true
  | .failure => .ret false
  | .interruptBeforeTry => .raisedKI
  | .interruptInTry => .ret false
  | .errorBeforeTry => .raisedExc
  | .errorInTry => .ret false

/-- Events for build-spotdl-pyinstaller.py main (lines 348-394), which
    has no exception handlers of its own: an interrupt or error anywhere
    in main escapes it. -/
inductive PyiRunEvent where
  | success
  | failure
  | interrupt
  | error
deriving DecidableEq

/-- The outcome of build-spotdl-pyinstaller.py main for each run event. -/
def main_outcome_pyi : PyiRunEvent → MainOutcome
  | .success => .ret true
  | .failure => .ret false
  | .interrupt => .raisedKI
  | .error => .raisedExc

/-- The __main__ block shared by build-spotdl.py (lines 433-449) and
    build-spotdl-pyinstaller.py (lines 397-413): sys.exit(0) when main
    returned True, sys.exit(1) when it returned False, sys.exit(130) on
    KeyboardInterrupt, sys.exit(1) on any other exception. -/
def top_level_exit (m : MainOutcome) : Nat :=
  match m with
  | .ret true => 0
  | .ret false => 1
  | .raisedKI => 130
  | .raisedExc => 1

/-- Process exit status of build-spotdl.py for each run event. -/
def exit_code_spotdl (e : SpotdlRunEvent) : Nat :=
  top_level_exit (main_outcome_spotdl e)

/-- Process exit status of build-spotdl-pyinstaller.py for each run
    event. -/
def exit_code_pyi (e : PyiRunEvent) : Nat :=
  top_level_exit (main_outcome_pyi e)

/-- get_platform_info of build-ytdlp-pyinstaller.py (lines 57-78), over
    platform.system() and platform.machine(). Returns the
    (platform_name, binary_name) pair, or the ValueError message. Note
    that only an unrecognized lowered system raises: under linux an
    unrecognized machine falls through to the synthesized name
    yt-dlp_linux_<machine> (line 71), and under windows to
    yt-dlp_<machine>.exe (line 76); darwin ignores the machine
    entirely. -/
def get_platform_info (system machine : PyStr) : Except PyStr (PyStr × PyStr) :=
  let s := pyLower system
  let m := pyLower machine
  if s = pys "darwin" then
    .ok (pys "macos", pys "yt-dlp_macos")
  else if s = pys "linux" then
    if m = pys "x86_64" ∨ m = pys "amd64" then
      .ok (pys "linux", pys "yt-dlp_linux")
    else if pyStartsWith (pys "arm") m then
      .ok (pys "linux_arm", pys "yt-dlp_linux_armv7l")
    else
      .ok (pys "linux", pys "yt-dlp_linux_" ++ m)
  else if s = pys "windows" then
    if m = pys "x86_64" ∨ m = pys "amd64" then
      .ok (pys "windows", pys "yt-dlp.exe")
    else
      .ok (pys "windows", pys "yt-dlp_" ++ m ++ pys ".exe")
  else
    .error (pys "Unsupported platform: " ++ s ++ pys " " ++ m)

/-- The fixed release endpoint of build-ytdlp-pyinstaller.py line 92. -/
def base_url : PyStr :=
  pys "https://github.com/yt-dlp/yt-dlp/releases/latest/download/"

/-- The head of download_binary (build-ytdlp-pyinstaller.py lines
    81-103) up to the point where the network request would be issued: a
    ValueError from get_platform_info is caught at line 87 and the
    function returns False with no URL ever constructed; otherwise the
    download URL base_url ++ binary_name is formed and the urlopen call
    is next. url = none therefore means no network request is
    attempted. -/
def download_binary_start (system machine : PyStr) : Bool × Option PyStr :=
  match get_platform_info system machine with
  | .error _ => (false, none)
  | .ok p => (true, some (base_url ++ p.2))

/-- A probe outcome that the build-spotdl.py loop breaks on: a completed
    process with return code 0. -/
def zeroExit (r : ProbeResult) : Bool :=
  match r with
  | .exit code _ => code == 0
  | _ => false

/-- The stdout of a completed probe (unused constructors return the empty
    text). -/
def stdoutOf (r : ProbeResult) : PyStr :=
  match r with
  | .exit _ out => out
  | _ => []

/-- A probe outcome that build-spotdl-pyinstaller.py accepts outright:
    return code 0 and a parsed version passing versionOk8. -/
def acceptsProbe8 (r : ProbeResult) : Bool :=
  match r with
  | .exit code out =>
    code == 0 &&
      (match parseMajorMinor out with
       | some v => versionOk8 v
       | none => false)
  | _ => false

/-- Like acceptsProbe8 with the build-spotdl.py minimum (3, 10). -/
def acceptsProbe10 (r : ProbeResult) : Bool :=
  match r with
  | .exit code out =>
    code == 0 &&
      (match parseMajorMinor out with
       | some v => versionOk10 v
       | none => false)
  | _ => false

lemma check_pyi_eq_find (probe : String → ProbeResult) :
    ∀ cmds : List String,
      (∀ c ∈ cmds, probe c ≠ ProbeResult.timeout ∧ probe c ≠ ProbeResult.spawnDenied) →
      check_python_version_pyi probe cmds
        = cmds.find? (fun c => acceptsProbe8 (probe c)) := by
  intro cmds
  induction cmds with
  | nil => intro _; rfl
  | cons c rest ih =>
    intro h
    have hc := h c (List.mem_cons_self c rest)
    have hr := ih (fun x hx => h x (List.mem_cons_of_mem c hx))
    cases hp : probe c with
    | spawnFailure =>
      have hneg : List.find? (fun x => acceptsProbe8 (probe x)) (c :: rest)
          = List.find? (fun x => acceptsProbe8 (probe x)) rest :=
        List.find?_cons_of_neg _ (by simp [hp, acceptsProbe8])
      rw [hneg]
      simpa [check_python_version_pyi, hp] using hr
    | spawnDenied => exact absurd hp hc.2
    | timeout => exact absurd hp hc.1
    | exit code out =>
      by_cases hcode : code = 0
      · subst hcode
        cases hpm : parseMajorMinor out with
        | none =>
          have hneg : List.find? (fun x => acceptsProbe8 (probe x)) (c :: rest)
              = List.find? (fun x => acceptsProbe8 (probe x)) rest :=
            List.find?_cons_of_neg _ (by simp [hp, acceptsProbe8, hpm])
          rw [hneg]
          simpa [check_python_version_pyi, hp, hpm] using hr
        | some v =>
          by_cases hv : versionOk8 v = true
          · have hpos : List.find? (fun x => acceptsProbe8 (probe x)) (c :: rest)
                = some c :=
              List.find?_cons_of_pos _ (by simp [hp, acceptsProbe8, hpm, hv])
            rw [hpos]
            simp [check_python_version_pyi, hp, hpm, hv]
          · have hneg : List.find? (fun x => acceptsProbe8 (probe x)) (c :: rest)
                = List.find? (fun x => acceptsProbe8 (probe x)) rest :=
              List.find?_cons_of_neg _ (by simp [hp, acceptsProbe8, hpm, hv])
            rw [hneg]
            simp only [check_python_version_pyi, hp, hpm]
            simp [hv, hr]
      · have hneg : List.find? (fun x => acceptsProbe8 (probe x)) (c :: rest)
            = List.find? (fun x => acceptsProbe8 (probe x)) rest :=
          List.find?_cons_of_neg _ (by simp [hp, acceptsProbe8, hcode])
        rw [hneg]
        simpa [check_python_version_pyi, hp, hcode] using hr

lemma probe_loop_spotdl_eq_find (probe : String → ProbeResult) :
    ∀ cmds : List String,
      (∀ c ∈ cmds, probe c ≠ ProbeResult.timeout ∧ probe c ≠ ProbeResult.spawnDenied) →
      probe_loop_spotdl probe cmds
        = (match cmds.find? (fun c => zeroExit (probe c)) with
           | none => SpotdlLoopOut.noZeroExit
           | some c => SpotdlLoopOut.found c (stdoutOf (probe c))) := by
  intro cmds
  induction cmds with
  | nil => intro _; rfl
  | cons c rest ih =>
    intro h
    have hc := h c (List.mem_cons_self c rest)
    have hr := ih (fun x hx => h x (List.mem_cons_of_mem c hx))
    cases hp : probe c with
    | spawnFailure =>
      have hneg : List.find? (fun x => zeroExit (probe x)) (c :: rest)
          = List.find? (fun x => zeroExit (probe x)) rest :=
        List.find?_cons_of_neg _ (by simp [hp, zeroExit])
      rw [hneg]
      simpa [probe_loop_spotdl, hp] using hr
    | spawnDenied => exact absurd hp hc.2
    | timeout => exact absurd hp hc.1
    | exit code out =>
      by_cases hcode : code = 0
      · subst hcode
        have hpos : List.find? (fun x => zeroExit (probe x)) (c :: rest) = some c :=
          List.find?_cons_of_pos _ (by simp [hp, zeroExit])
        rw [hpos]
        simp [probe_loop_spotdl, hp, stdoutOf]
      · have hneg : List.find? (fun x => zeroExit (probe x)) (c :: rest)
            = List.find? (fun x => zeroExit (probe x)) rest :=
          List.find?_cons_of_neg _ (by simp [hp, zeroExit, hcode])
        rw [hneg]
        simpa [probe_loop_spotdl, hp, hcode] using hr

/-- A probe under which build-spotdl.py commits to a too-old candidate:
    python reports 2.7.18, python3.11 reports 3.11.4, everything else
    fails to spawn. -/
def probeC1 : String → ProbeResult := fun c =>
  if c = "python" then .exit 0 (pys "Python 2.7.18")
  else if c = "python3.11" then .exit 0 (pys "Python 3.11.4")
  else .spawnFailure

/-- A probe under which the first pyinstaller candidate times out while a
    later one is perfectly acceptable. -/
def probeC1T : String → ProbeResult := fun c =>
  if c = "python3.11" then .timeout
  else .exit 0 (pys "Python 3.10.2")

/-- Claim C1 is false on the code: in build-spotdl.py the candidate
    python exits 0 with a too-old version 2.7.18 and is NOT skipped — the
    resolver fails outright even though python3.11, later in the list,
    qualifies; and in build-spotdl-pyinstaller.py a timeout on the first
    candidate is not skipped either — the resolver returns None even
    though python3.10, later in the list, qualifies. -/
theorem C1_counterexample :
    check_python_version_spotdl probeC1 pythonCmdsSpotdl = (false, none) ∧
    acceptsProbe10 (probeC1 "python3.11") = true ∧
    "python3.11" ∈ pythonCmdsSpotdl ∧
    check_python_version_pyi probeC1T pythonCmdsPyi = none ∧
    acceptsProbe8 (probeC1T "python3.10") = true ∧
    "python3.10" ∈ pythonCmdsPyi := by
  decide

/-- Claim C1 (amended): when no candidate probe raises a timeout (or a
    spawn exception other than FileNotFoundError / CalledProcessError),
    build-spotdl-pyinstaller.py returns the first candidate in list order
    whose probe exits 0 with a parseable version meeting its minimum,
    skipping candidates that fail to spawn, exit non-zero, or emit
    unparseable or too-old output; build-spotdl.py instead commits to the
    first candidate that exits 0 and fails outright (probing no further
    candidate) when the output of that one is unparseable or too old. A
    timeout on a candidate aborts resolution immediately in both
    scripts. -/
theorem C1_interpreter_resolution :
    (∀ (probe : String → ProbeResult) (cmds : List String),
      (∀ c ∈ cmds, probe c ≠ ProbeResult.timeout ∧ probe c ≠ ProbeResult.spawnDenied) →
      check_python_version_pyi probe cmds
          = cmds.find? (fun c => acceptsProbe8 (probe c)) ∧
      check_python_version_spotdl probe cmds
          = (match cmds.find? (fun c => zeroExit (probe c)) with
             | none => (false, none)
             | some c =>
               match parseMajorMinor (stdoutOf (probe c)) with
               | none => (false, none)
               | some v =>
                 if versionOk10 v then (true, some c) else (false, none))) ∧
    (∀ (probe : String → ProbeResult) (c : String) (rest : List String),
      probe c = ProbeResult.timeout →
      check_python_version_pyi probe (c :: rest) = none ∧
      check_python_version_spotdl probe (c :: rest) = (false, none)) := by
  constructor
  · intro probe cmds h
    refine ⟨check_pyi_eq_find probe cmds h, ?_⟩
    unfold check_python_version_spotdl
    rw [probe_loop_spotdl_eq_find probe cmds h]
    cases cmds.find? (fun c => zeroExit (probe c)) with
    | none => rfl
    | some c => rfl
  · intro probe c rest hp
    constructor
    · simp [check_python_version_pyi, hp]
    · simp [check_python_version_spotdl, probe_loop_spotdl, hp]

/-- Witness for C1: the amended characterizations applied to concrete
    probes and the concrete candidate lists of both scripts. -/
theorem C1_interpreter_resolution_witness :
    ((∀ c ∈ pythonCmdsSpotdl,
        probeC1 c ≠ ProbeResult.timeout ∧ probeC1 c ≠ ProbeResult.spawnDenied) ∧
      check_python_version_pyi probeC1 pythonCmdsSpotdl
        = pythonCmdsSpotdl.find? (fun c => acceptsProbe8 (probeC1 c))) ∧
    (probeC1T "python3.11" = ProbeResult.timeout ∧
      check_python_version_pyi probeC1T ("python3.11" :: ["python3"]) = none) :=
  ⟨⟨by decide,
    (C1_interpreter_resolution.1 probeC1 pythonCmdsSpotdl (by decide)).1⟩,
   ⟨by decide,
    (C1_interpreter_resolution.2 probeC1T "python3.11" ["python3"] (by decide)).1⟩⟩

/-- Claim C2 is false on the code: both scripts test major >= 3, not
    major == 3, so a candidate reporting version 4.8.0 is accepted and
    returned by build-spotdl-pyinstaller.py, and one reporting 4.10.1 by
    build-spotdl.py, although their major component is not 3. -/
theorem C2_counterexample :
    parseMajorMinor (pys "Python 4.8.0") = some (4, 8) ∧
    check_python_version_pyi (fun _ => .exit 0 (pys "Python 4.8.0")) pythonCmdsPyi
      = some "python3.11" ∧
    parseMajorMinor (pys "Python 4.10.1") = some (4, 10) ∧
    check_python_version_spotdl (fun _ => .exit 0 (pys "Python 4.10.1")) pythonCmdsSpotdl
      = (true, some "python") := by
  decide

/-- Claim C2 (amended): for every version string that parses as
    (major, minor), the resolver accepts a candidate if and only if
    major >= 3 AND minor >= the configured minimum minor (8 in
    build-spotdl-pyinstaller.py, 10 in build-spotdl.py); the patch
    component is never read and has no effect. Candidates with major > 3
    can therefore be returned. -/
theorem C2_version_acceptance :
    ∀ (s : PyStr) (major minor : Int) (cmd : String),
      parseMajorMinor s = some (major, minor) →
      (check_python_version_pyi (fun _ => ProbeResult.exit 0 s) [cmd] = some cmd
        ↔ (3 ≤ major ∧ 8 ≤ minor)) ∧
      (check_python_version_spotdl (fun _ => ProbeResult.exit 0 s) [cmd]
          = (true, some cmd)
        ↔ (3 ≤ major ∧ 10 ≤ minor)) := by
  intro s major minor cmd h
  have h8 : check_python_version_pyi (fun _ => ProbeResult.exit 0 s) [cmd]
      = if versionOk8 (major, minor) then some cmd else none := by
    simp [check_python_version_pyi, h]
  have h10 : check_python_version_spotdl (fun _ => ProbeResult.exit 0 s) [cmd]
      = if versionOk10 (major, minor) then ((true : Bool), some cmd)
        else ((false : Bool), (none : Option String)) := by
    simp [check_python_version_spotdl, probe_loop_spotdl, h]
  constructor
  · rw [h8]
    by_cases hv : versionOk8 (major, minor) = true
    · have hv' : 3 ≤ major ∧ 8 ≤ minor := by simpa [versionOk8] using hv
      simp [hv, hv']
    · have hv' : ¬(3 ≤ major ∧ 8 ≤ minor) := by simpa [versionOk8] using hv
      simp [hv, hv']
  · rw [h10]
    by_cases hv : versionOk10 (major, minor) = true
    · have hv' : 3 ≤ major ∧ 10 ≤ minor := by simpa [versionOk10] using hv
      simp [hv, hv']
    · have hv' : ¬(3 ≤ major ∧ 10 ≤ minor) := by simpa [versionOk10] using hv
      simp [hv, hv']

/-- Witness for C2: the acceptance criterion applied to the concrete
    output "Python 3.11.4". -/
theorem C2_version_acceptance_witness :
    parseMajorMinor (pys "Python 3.11.4") = some (3, 11) ∧
    (check_python_version_pyi (fun _ => ProbeResult.exit 0 (pys "Python 3.11.4"))
        ["python3"] = some "python3"
      ↔ ((3 : Int) ≤ 3 ∧ (8 : Int) ≤ 11)) :=
  ⟨by decide,
   (C2_version_acceptance (pys "Python 3.11.4") 3 11 "python3" (by decide)).1⟩

/-- Claim C3 is false on the code: in build-spotdl-pyinstaller.py the
    critical spotdl installation (combined with yt-dlp in one pip
    command) is attempted exactly once and its failure aborts the build
    immediately, with no retry; and in build-spotdl.py the non-critical
    yt-dlp installation is attempted up to three times (the venv pip
    command plus two alternative commands), i.e. it is retried twice. -/
theorem C3_counterexample :
    (build_executable_with_pyinstaller
        (fun c => !(c == PyiCmd.installSpotdlYtdlp)) (fun _ => true) true true true)
      = ⟨false, false, [.venvCreate, .pipUpgrade, .installSpotdlYtdlp]⟩ ∧
    ((build_executable_with_pyinstaller
        (fun c => !(c == PyiCmd.installSpotdlYtdlp)) (fun _ => true) true true true).cmdsRun.count
      PyiCmd.installSpotdlYtdlp) = 1 ∧
    (install_ytdlp (fun _ => false)).1.length = 3 := by
  decide

/-- Claim C3 (amended): in build-spotdl.py, spotdl installation is
    attempted up to exactly 3 times, sleeping 5 seconds after each failed
    non-final attempt, a success stops further attempts, and main aborts
    only when all 3 attempts failed; yt-dlp is attempted once and, on
    failure, up to two alternative install commands are tried, after
    which failure is downgraded to a warning and main continues whatever
    the yt-dlp outcome was. In build-spotdl-pyinstaller.py, spotdl and
    yt-dlp are installed together by a single pip command that is never
    retried, and its failure aborts the build. -/
theorem C3_dependency_install :
    (∀ run : Nat → Bool,
      install_spotdl run
        = if run 0 then (1, 0, true)
          else if run 1 then (2, 1, true)
          else if run 2 then (3, 2, true)
          else (3, 2, false)) ∧
    (∀ yt : YtCmd → Bool,
      (install_ytdlp yt).1.length ≤ 3 ∧
      ((install_ytdlp yt).2 = true ↔ (yt .venvPip = true ∨ yt .pyMPip = true ∨ yt .pip3User = true))) ∧
    (∀ (run : Nat → Bool) (yt yt' : YtCmd → Bool),
      main_install_section run yt = main_install_section run yt') ∧
    (∀ (run : Nat → Bool) (yt : YtCmd → Bool),
      main_install_section run yt = true
        ↔ (run 0 = true ∨ run 1 = true ∨ run 2 = true)) ∧
    (∀ (run : PyiCmd → Bool) (fs : String → Bool) (e o u : Bool),
      (build_executable_with_pyinstaller run fs e o u).cmdsRun.count
        PyiCmd.installSpotdlYtdlp ≤ 1) := by
  refine ⟨?_, ?_, ?_, ?_, ?_⟩
  · intro run
    cases h0 : run 0 <;> cases h1 : run 1 <;> cases h2 : run 2 <;>
      simp [install_spotdl, install_retry_loop, h0, h1, h2]
  · intro yt
    cases h1 : yt .venvPip <;> cases h2 : yt .pyMPip <;> cases h3 : yt .pip3User <;>
      simp [install_ytdlp, h1, h2, h3]
  · intro run yt yt'
    simp [main_install_section]
  · intro run yt
    cases h0 : run 0 <;> cases h1 : run 1 <;> cases h2 : run 2 <;>
      simp [main_install_section, install_spotdl, install_retry_loop, h0, h1, h2]
  · intro run fs e o u
    simp only [build_executable_with_pyinstaller]
    split_ifs <;> simp [List.count_cons, List.count_nil]

/-- Claim C4 is false on the code: when the tool invocation succeeds and
    the output path exists but the file is empty (stat size 0), both the
    build function and the verification tail of main still report success —
    the size is read only for a log line and emptiness is never
    checked. -/
theorem C4_counterexample :
    (build_executable_with_pyinstaller (fun _ => true) (fun _ => true) true true true).success
      = true ∧
    main_verify_pyi true (some 0) = true := by
  decide

/-- Claim C4 (amended): after the packaging tool invocation the packager
    reports success only if the tool invocation succeeded and the
    declared output path exists; if the output path is absent it returns
    a failure result even when the tool invocation succeeded. The file
    size is read only for reporting (a stat failure is a warning) and has
    no effect on the result; emptiness is not checked. -/
theorem C4_packaging_verification :
    (∀ (run : PyiCmd → Bool) (fs : String → Bool) (e o u : Bool),
      (build_executable_with_pyinstaller run fs e o u).success = true →
        run PyiCmd.pyinstallerBuild = true ∧ o = true) ∧
    (∀ (run : PyiCmd → Bool) (fs : String → Bool) (e u : Bool),
      (build_executable_with_pyinstaller run fs e false u).success = false) ∧
    (∀ (ex : Bool) (s s' : Option Nat),
      main_verify_pyi ex s = main_verify_pyi ex s') ∧
    (∀ s : Option Nat, main_verify_pyi false s = false) := by
  refine ⟨?_, ?_, ?_, ?_⟩
  · intro run fs e o u h
    simp only [build_executable_with_pyinstaller] at h
    split_ifs at h with h1 h2 h3 h4 h5 h6 h7 <;> simp_all
  · intro run fs e u
    simp only [build_executable_with_pyinstaller]
    split_ifs <;> simp_all
  · intro ex s s'
    cases s <;> cases s' <;> cases ex <;> rfl
  · intro s
    cases s <;> rfl

/-- Witness for C4: the success implication applied to the all-success
    build. -/
theorem C4_packaging_verification_witness :
    (build_executable_with_pyinstaller (fun _ => true) (fun _ => true) true true true).success
        = true ∧
    ((fun _ => true) PyiCmd.pyinstallerBuild = true ∧ (true : Bool) = true) :=
  ⟨by decide,
   C4_packaging_verification.1 (fun _ => true) (fun _ => true) true true true (by decide)⟩

/-- Claim C5 is false on the code: when the PyInstaller invocation fails
    (and likewise when the output verification fails), the function
    returns with spotdl_entry.py still on disk — the unlink at line 339
    is reached only on the success path, there is no try/finally. -/
theorem C5_counterexample :
    (build_executable_with_pyinstaller
        (fun c => !(c == PyiCmd.pyinstallerBuild)) (fun _ => true) true true true).success
      = false ∧
    (build_executable_with_pyinstaller
        (fun c => !(c == PyiCmd.pyinstallerBuild)) (fun _ => true) true true true).entryPersists
      = true ∧
    (build_executable_with_pyinstaller (fun _ => true) (fun _ => true) true false true).entryPersists
      = true := by
  decide

/-- Claim C5 (amended): the synthesized entry script is deleted only on
    the success path: after a successful tool invocation and output
    verification it is unlinked (an unlink failure is only a warning); on
    a tool-invocation failure or an output-verification failure the step
    returns with the script still on disk. Exit paths before the script
    is created leave nothing behind. -/
theorem C5_entry_point_cleanup :
    (∀ (run : PyiCmd → Bool) (fs : String → Bool) (e o u : Bool),
      (build_executable_with_pyinstaller run fs e o u).entryPersists
        = (run PyiCmd.venvCreate && fs ((resolve_venv_paths fs).1)
            && run PyiCmd.installSpotdlYtdlp && run PyiCmd.installPyinstaller && e
            && (!(run PyiCmd.pyinstallerBuild && o) || !u))) ∧
    (∀ (run : PyiCmd → Bool) (fs : String → Bool) (e o u : Bool),
      (build_executable_with_pyinstaller run fs e o u).success = true →
        (build_executable_with_pyinstaller run fs e o u).entryPersists = !u) := by
  constructor
  · intro run fs e o u
    simp only [build_executable_with_pyinstaller]
    split_ifs <;> simp_all
  · intro run fs e o u h
    simp only [build_executable_with_pyinstaller] at h ⊢
    split_ifs at h ⊢ <;> simp_all

/-- Witness for C5: the success-path clause applied to an all-success
    build whose cleanup unlink succeeds. -/
theorem C5_entry_point_cleanup_witness :
    (build_executable_with_pyinstaller (fun _ => true) (fun _ => true) true true true).success
        = true ∧
    (build_executable_with_pyinstaller (fun _ => true) (fun _ => true) true true true).entryPersists
        = !true :=
  ⟨by decide,
   C5_entry_point_cleanup.2 (fun _ => true) (fun _ => true) true true true (by decide)⟩

/-- Claim C6 is false on the code: (linux, riscv64) is not a recognized
    pair of the mapping (it is neither x86_64/amd64 nor an arm machine),
    yet get_platform_info does not raise — it synthesizes the guessed
    artifact name yt-dlp_linux_riscv64 — and download_binary proceeds to
    construct the download URL, so a network request is attempted. -/
theorem C6_counterexample :
    get_platform_info (pys "Linux") (pys "riscv64")
      = .ok (pys "linux", pys "yt-dlp_linux_riscv64") ∧
    pyStartsWith (pys "arm") (pys "riscv64") = false ∧
    download_binary_start (pys "Linux") (pys "riscv64")
      = (true, some (base_url ++ pys "yt-dlp_linux_riscv64")) := by
  decide

lemma get_platform_info_error_iff (system machine : PyStr) :
    (∃ e, get_platform_info system machine = .error e)
      ↔ pyLower system ∉ [pys "darwin", pys "linux", pys "windows"] := by
  simp only [get_platform_info]
  split_ifs with h1 h2 h3 h4 h5 h6 <;>
    simp_all [List.mem_cons]

/-- Claim C6 (amended): get_platform_info raises the unsupported-platform
    ValueError exactly when the lowered OS family is none of darwin,
    linux, windows — the CPU architecture never causes the error (an
    unrecognized machine under linux or windows yields a synthesized name
    embedding the machine string, and darwin ignores it) — and
    download_binary catches that error and returns failure without
    constructing a download URL, so no network request is made exactly in
    the unrecognized-OS case. -/
theorem C6_platform_mapping :
    (∀ system machine : PyStr,
      (∃ e, get_platform_info system machine = .error e)
        ↔ pyLower system ∉ [pys "darwin", pys "linux", pys "windows"]) ∧
    (∀ system machine : PyStr,
      (download_binary_start system machine).2 = none
        ↔ pyLower system ∉ [pys "darwin", pys "linux", pys "windows"]) ∧
    (∀ system machine : PyStr,
      (download_binary_start system machine).1 = false
        ↔ (download_binary_start system machine).2 = none) := by
  refine ⟨get_platform_info_error_iff, ?_, ?_⟩
  · intro system machine
    rw [← get_platform_info_error_iff system machine]
    unfold download_binary_start
    cases h : get_platform_info system machine <;> simp [h]
  · intro system machine
    unfold download_binary_start
    cases h : get_platform_info system machine <;> simp

/-- Claim C7 is false on the code: a KeyboardInterrupt raised inside the
    try block of build-spotdl.py main — which spans environment creation,
    dependency installation, and verification — is caught at line 424,
    converted into a False return, and the process exits with status 1,
    not 130. -/
theorem C7_counterexample :
    exit_code_spotdl SpotdlRunEvent.interruptInTry = 1 ∧
    main_outcome_spotdl SpotdlRunEvent.interruptInTry = MainOutcome.ret false ∧
    (1 : Nat) ≠ 130 := by
  decide

/-- Claim C7 (amended): the process exit status is 0 exactly on a fully
    successful run and 1 for every handled failure in both scripts; a
    user interrupt yields 130 in build-spotdl-pyinstaller.py wherever it
    arrives, and in build-spotdl.py only when it arrives outside the
    provisioning/installation try block of main — an interrupt inside
    that block is converted to an ordinary failure with exit status 1. -/
theorem C7_exit_codes :
    (∀ e, exit_code_spotdl e = 0 ↔ e = SpotdlRunEvent.success) ∧
    (∀ e, exit_code_pyi e = 0 ↔ e = PyiRunEvent.success) ∧
    (∀ e, exit_code_spotdl e = 130 ↔ e = SpotdlRunEvent.interruptBeforeTry) ∧
    (∀ e, exit_code_pyi e = 130 ↔ e = PyiRunEvent.interrupt) ∧
    exit_code_spotdl SpotdlRunEvent.interruptInTry = 1 ∧
    exit_code_spotdl SpotdlRunEvent.failure = 1 ∧
    exit_code_spotdl SpotdlRunEvent.errorInTry = 1 ∧
    exit_code_spotdl SpotdlRunEvent.errorBeforeTry = 1 ∧
    exit_code_pyi PyiRunEvent.failure = 1 ∧
    exit_code_pyi PyiRunEvent.error = 1 := by
  refine ⟨?_, ?_, ?_, ?_, by decide, by decide, by decide, by decide, by decide, by decide⟩
  · intro e; cases e <;> decide
  · intro e; cases e <;> decide
  · intro e; cases e <;> decide
  · intro e; cases e <;> decide

/-- A command-runner oracle under which only the virtualenv-module
    strategy succeeds. -/
def runC8 : String → Bool := fun c => c == "python3 -m virtualenv spotdl_env"

/-- Claim C8 is false on the code: build-spotdl-pyinstaller.py attempts
    only the single native-venv command (not in copies mode) and fails
    immediately when it fails, even though the virtualenv-module strategy
    — which build-spotdl.py would try next and which succeeds under this
    oracle — was never attempted. -/
theorem C8_counterexample :
    create_venv_pyi runC8 "python3" = (["python3 -m venv spotdl_env"], false) ∧
    (create_venv_spotdl runC8 "python3").2.1
      = some "python3 -m virtualenv spotdl_env" := by
  decide

lemma venv_strategy_loop_spec (run : String → Bool) :
    ∀ cmds : List String,
      (venv_strategy_loop run cmds).2 = cmds.find? run ∧
      (venv_strategy_loop run cmds).1
        = cmds.takeWhile (fun c => !run c) ++ (cmds.find? run).toList := by
  intro cmds
  induction cmds with
  | nil => exact ⟨rfl, rfl⟩
  | cons c rest ih =>
    by_cases h : run c = true
    · have hfind : List.find? run (c :: rest) = some c :=
        List.find?_cons_of_pos rest h
      constructor
      · simp [venv_strategy_loop, h, hfind]
      · simp [venv_strategy_loop, h, hfind, List.takeWhile_cons]
    · have h' : run c = false := by simpa using h
      have hfind : List.find? run (c :: rest) = List.find? run rest :=
        List.find?_cons_of_neg rest (by simp [h'])
      constructor
      · simp [venv_strategy_loop, h', hfind, ih.1]
      · simp [venv_strategy_loop, h', hfind, List.takeWhile_cons, ih.2]

/-- Claim C8 (amended): build-spotdl.py tries its three creation
    strategies (native venv in copies mode, then the virtualenv module,
    then system virtualenv) left to right, returns the first that
    succeeds, attempts no command after the winning one, and emits the
    remediation hints exactly when all three strategies failed;
    build-spotdl-pyinstaller.py attempts only the single native-venv
    command (without copies mode) and fails as soon as it fails. -/
theorem C8_env_strategies :
    (∀ (run : String → Bool) (pc : String),
      (create_venv_spotdl run pc).2.1 = (venv_commands pc).find? run ∧
      (create_venv_spotdl run pc).1
        = (venv_commands pc).takeWhile (fun c => !run c)
            ++ ((venv_commands pc).find? run).toList ∧
      ((create_venv_spotdl run pc).2.2 = true
        ↔ ∀ c ∈ venv_commands pc, run c = false)) ∧
    (∀ (run : String → Bool) (pc : String),
      create_venv_pyi run pc
        = ([pc ++ " -m venv spotdl_env"], run (pc ++ " -m venv spotdl_env"))) := by
  constructor
  · intro run pc
    refine ⟨(venv_strategy_loop_spec run (venv_commands pc)).1,
            (venv_strategy_loop_spec run (venv_commands pc)).2, ?_⟩
    show ((venv_strategy_loop run (venv_commands pc)).2.isNone = true ↔ _)
    rw [(venv_strategy_loop_spec run (venv_commands pc)).1]
    simp [Option.isNone_iff_eq_none, List.find?_eq_none]
  · intro run pc
    rfl

/-- The filesystem after cleanup_existing_installation has removed
    spotdl_env: nothing under it exists. -/
def fsEmpty : String → Bool := fun _ => false

/-- A filesystem in which the environment creation produced only the
    versioned binary names bin/python3 and bin/pip3, with no generic
    alias. -/
def fsPython3Only : String → Bool := fun p =>
  p == "spotdl_env/bin/python3" || p == "spotdl_env/bin/pip3"

/-- Claim C9 concerns a code bug in build-spotdl.py: the filesystem
    probing of lines 268-275 runs BEFORE the environment is created —
    right after cleanup removed spotdl_env — so it always resolves the
    fallback names bin/python and bin/pip whatever the creation strategy
    later produces; with an environment that provides only bin/python3,
    the post-creation verification of line 311 then fails even though a
    working interpreter exists. build-spotdl-pyinstaller.py probes after
    creation (lines 235-242) and resolves bin/python3 as the spec
    describes. -/
theorem C9_code_evaluation :
    resolve_venv_paths fsEmpty = ("spotdl_env/bin/python", "spotdl_env/bin/pip") ∧
    fsPython3Only "spotdl_env/bin/python3" = true ∧
    provision_spotdl fsEmpty fsPython3Only true = none ∧
    resolve_venv_paths fsPython3Only
      = ("spotdl_env/bin/python3", "spotdl_env/bin/pip3") ∧
    (build_executable_with_pyinstaller (fun _ => true) fsPython3Only true true true).success
      = true := by
  decide

/-- Claim C10: with an empty-string or non-string cmd, run_command (the
    same guard in all three scripts) returns (False, "Invalid command")
    and no child process is spawned, whatever the subprocess oracle would
    have done. The first component of the model result records whether a
    child process was spawned. -/
theorem C10_run_command_guard :
    ∀ (spawn : SpawnOutcome) (cmd : CmdArg),
      (cmd = CmdArg.nonString ∨ cmd = CmdArg.pyStr "") →
      run_command cmd spawn = (false, (false, "Invalid command")) := by
  intro spawn cmd h
  rcases h with h | h <;> subst h <;> simp [run_command]

/-- Witness for C10: the guard applied to the non-string argument and to
    the empty command string. -/
theorem C10_run_command_guard_witness :
    (CmdArg.pyStr "" = CmdArg.nonString ∨ CmdArg.pyStr "" = CmdArg.pyStr "") ∧
    run_command (CmdArg.pyStr "") SpawnOutcome.timedOut
      = (false, (false, "Invalid command")) :=
  ⟨Or.inr rfl,
   C10_run_command_guard SpawnOutcome.timedOut (CmdArg.pyStr "") (Or.inr rfl)⟩
